import Mathlib

/-!
Verification of the asynchronous task engine of pulp (src/pulp/server/async.py and
src/pulp/server/api/repo.py) against its specification, via a shallow embedding.

Python values are modelled by `PyVal`, tasks by `Task`, the module-level `_queue`
registry by `TaskQueue`.  Code that lives outside the provided sources
(pulp.server.tasking.*, pulp.server.db.model.persistence, pulp.server.config helpers)
is modelled from the specification; each such definition carries a doc comment that
starts with "Modelled from the spec:".
-/

namespace Pulp

/-- A Python value, restricted to the shapes the embedded code manipulates.
Tuples are encoded as cons-chains (`tupCons v rest`) ending in `tupNil`, so that
the one-element tuple `(v,)` built by `ReplyHandler.failed` is
`tupCons v tupNil`.  `remoteMethod` carries (id, secret, classname, options,
taskid, name) in the order of `RemoteMethod.__init__`. -/
inductive PyVal : Type where
  | pyNone : PyVal
  | str : String → PyVal
  | int : Int → PyVal
  | tupNil : PyVal
  | tupCons : PyVal → PyVal → PyVal
  | remoteMethod : String → String → String → PyVal → PyVal → String → PyVal
  deriving DecidableEq

mutual

/-- Python `repr`, for the value shapes above.  A one-element tuple prints with the
trailing comma, as in CPython.  `\x27` is the single-quote character. -/
def pyRepr : PyVal → String
  | .pyNone => "None"
  | .str s => "\x27" ++ s ++ "\x27"
  | .int n => toString n
  | .tupNil => "()"
  | .tupCons v rest =>
      "(" ++ pyRepr v ++
        (match rest with
         | .tupNil => ",)"
         | _ => pyReprRest rest ++ ")")
  | .remoteMethod _ _ c _ _ m => "<RemoteMethod " ++ c ++ "." ++ m ++ ">"

/-- Remaining elements of a tuple, each preceded by ", ". -/
def pyReprRest : PyVal → String
  | .tupCons v rest => ", " ++ pyRepr v ++ pyReprRest rest
  | _ => ""

end

/-- Task states, spec section 3: terminal states are succeeded, failed, canceled,
timed_out. -/
inductive TaskState : Type where
  | waiting
  | running
  | succeeded
  | failed
  | canceled
  | timed_out
  deriving DecidableEq

/-- A task: id is the uuid assigned at creation, `method` names the callable,
`args`/`kwargs` its arguments.  `progress` models the progress side-channel written
by `set_progress`, `synchronizer` the synchronizer attached by `set_synchronizer`
(`RepoSyncTask`).  `taskType` records which task class was constructed. -/
structure Task : Type where
  id : String
  method : String
  args : List PyVal
  kwargs : List (String × PyVal)
  timeout : Option Nat
  taskType : String
  state : TaskState
  result : Option PyVal
  exception : Option PyVal
  tracebackRepr : Option String
  progress : List (String × String)
  synchronizer : Option String
  deriving DecidableEq

/-- Modelled from the spec: the unique key is "derived from the callable identity +
arguments" (spec sections 3 and 9; the Task class of pulp.server.tasking.task is not
under src). -/
def Task.uniqueKey (t : Task) : String × List PyVal := (t.method, t.args)

/-- Whether two tasks have the same derived unique key. -/
def Task.matchesKey (u t : Task) : Bool :=
  decide (u.method = t.method ∧ u.args = t.args)

/-- A task counts against uniqueness while it is waiting or running (spec 4.1). -/
def Task.isActive (t : Task) : Bool :=
  decide (t.state = .waiting ∨ t.state = .running)

/-- Modelled from the spec: Task's success callback stores the returned value and
moves the task to `succeeded` ("success reply → task's success callback is invoked
with the returned value", "task transitions to succeeded with result 42"; the Task
class is not under src). -/
def Task.succeeded (t : Task) (result : PyVal) : Task :=
  { t with state := .succeeded, result := some result }

/-- Modelled from the spec: Task's failure callback stores the exception value and
traceback representation and moves the task to `failed` (spec 4.2: "running
--error callback--> failed"; the Task class is not under src). -/
def Task.failed (t : Task) (exception : PyVal) (tb : String) : Task :=
  { t with state := .failed, exception := some exception, tracebackRepr := some tb }

/-- Modelled from the spec: `set_progress` records a named progress callback in the
task's progress side-channel (spec 3, "Progress metadata"; the Task class is not
under src). -/
def Task.set_progress (t : Task) (key cb : String) : Task :=
  { t with progress := (key, cb) :: t.progress }

/-- Modelled from the spec: `RepoSyncTask.set_synchronizer` attaches the
synchronizer for the repo's source type (the RepoSyncTask class is not under src). -/
def Task.set_synchronizer (t : Task) (sourceType : String) : Task :=
  { t with synchronizer := some sourceType }

-- queue model -----------------------------------------------------------------

/-- Outcome of the snapshot write a queue admission performs, as an oracle keyed by
task id: it succeeds, raises DuplicateSnapshotError, or raises some other fatal
persistence exception (spec 4.3: durability failure is surfaced to the caller). -/
inductive SaveOutcome : Type where
  | ok
  | duplicateSnapshot
  | fatal (msg : String)
  deriving DecidableEq

/-- Exceptions escaping `TaskQueue.enqueue`:
`NonUniqueTaskException`, `DuplicateSnapshotError`, or any other exception. -/
inductive QueueErr : Type where
  | nonUniqueTask (msg : String)
  | duplicateSnapshotError (msg : String)
  | exceptionErr (msg : String)
  deriving DecidableEq

/-- Python exceptions that the embedded repo-api code can raise. -/
inductive PyErr : Type where
  | attributeError (attr : String)
  | exceptionErr (msg : String)
  deriving DecidableEq

/-- The in-memory task registry behind the module-level `_queue`, together with the
snapshot-storage durability oracle used by admissions. -/
structure TaskQueue : Type where
  tasks : List Task
  saveOutcome : String → SaveOutcome

/-- Modelled from the spec: `TaskQueue.enqueue`
(pulp.server.tasking.taskqueue.queue, not under src).  Spec 4.1: "if unique is
true and a task with the same derived unique key is already in waiting or
running, the call fails with a non-unique task condition and the new task is
discarded ... Otherwise the task is persisted via SnapshotStore and placed in
waiting"; spec 4.3: a durability failure during the save is surfaced to the
caller (DuplicateSnapshotError or another exception). -/
def TaskQueue.enqueueImpl (q : TaskQueue) (task : Task) (unique : Bool) :
    Except QueueErr TaskQueue :=
  if unique && q.tasks.any (fun u => u.matchesKey task && u.isActive) then
    .error (.nonUniqueTask "task already in the queue")
  else
    match q.saveOutcome task.id with
    | .ok => .ok { q with tasks := q.tasks ++ [{ task with state := .waiting }] }
    | .duplicateSnapshot => .error (.duplicateSnapshotError "duplicate snapshot")
    | .fatal m => .error (.exceptionErr m)

/-- Modelled from the spec: `TaskQueue.find` restricted to the `id` criterion, as
used by `find_async(id=taskid)` ("linear lookup ... across the in-memory registry
by attribute match (id, state, method identity, argument membership)", spec 4.1;
the TaskQueue class is not under src). -/
def TaskQueue.findById (q : TaskQueue) (taskid : String) : List Task :=
  q.tasks.filter (fun t => decide (t.id = taskid))

/-- Replace the first task with the given id by the image of `f`, modelling an
in-place mutation of the first element of a `find` result. -/
def updateFirst : List Task → String → (Task → Task) → List Task
  | [], _, _ => []
  | t :: ts, taskid, f =>
      if t.id = taskid then f t :: ts else t :: updateFirst ts taskid f

-- async api (async.py) --------------------------------------------------------

/-- Embeds `pulp.server.async.enqueue` (async.py lines 41-57): delegates to
`_queue.enqueue`; `NonUniqueTaskException` and `DuplicateSnapshotError` are caught,
logged, and turned into a `None` return; any other exception propagates; on
success the task itself is returned. -/
def enqueue (q : TaskQueue) (task : Task) (unique : Bool) :
    Except PyErr (TaskQueue × Option Task) :=
  match q.enqueueImpl task unique with
  | .error (.nonUniqueTask _) => .ok (q, none)
  | .error (.duplicateSnapshotError _) => .ok (q, none)
  | .error (.exceptionErr m) => .error (.exceptionErr m)
  | .ok q2 => .ok (q2, some task)

/-- Embeds `pulp.server.async.run_async` (async.py lines 60-81): builds a task of
the requested type (default `Task`) from the callable, arguments and timeout, and
submits it through `enqueue`.  `newId` stands for the fresh uuid the Task
constructor assigns (the Task class is not under src). -/
def run_async (q : TaskQueue) (newId : String) (method : String) (args : List PyVal)
    (kwargs : List (String × PyVal)) (timeout : Option Nat) (unique : Bool)
    (task_type : String) : Except PyErr (TaskQueue × Option Task) :=
  let task : Task :=
    { id := newId, method := method, args := args, kwargs := kwargs,
      timeout := timeout, taskType := task_type, state := .waiting,
      result := none, exception := none, tracebackRepr := none,
      progress := [], synchronizer := none }
  enqueue q task unique

/-- Iterates the module-level `enqueue` with `unique := true` over a sequence of
submissions, collecting the handle (or `None`) each submitter receives. -/
def submitSeq (q : TaskQueue) : List Task → Except PyErr (TaskQueue × List (Option Task))
  | [] => .ok (q, [])
  | t :: ts =>
      match enqueue q t true with
      | .error e => .error e
      | .ok (q2, r) =>
          match submitSeq q2 ts with
          | .error e => .error e
          | .ok (q3, rs) => .ok (q3, r :: rs)

-- reply handler (async.py, ReplyHandler) --------------------------------------

/-- An asynchronous RMI reply, with the fields the handler reads: serial number
`sn`, correlation payload `any` (the task id), return value `retval`, exception
value `exval`. -/
structure Reply : Type where
  sn : Nat
  any : String
  retval : PyVal
  exval : PyVal
  deriving DecidableEq

namespace ReplyHandler

/-- Embeds `ReplyHandler.succeeded` (async.py lines 366-375): looks the task up by
the reply's correlation payload; if found, invokes the first found task's success
callback with `reply.retval`; otherwise the reply is only logged (the registry is
unchanged and no exception is raised). -/
def succeeded (q : TaskQueue) (reply : Reply) : TaskQueue :=
  let taskid := reply.any
  match q.findById taskid with
  | [] => q
  | _ :: _ =>
      { q with tasks := updateFirst q.tasks taskid (fun t => t.succeeded reply.retval) }

/-- Embeds `ReplyHandler.failed` (async.py lines 377-387).  The source line
`exception = reply.exval,` ends in a comma, so `exception` is the one-element
tuple `(reply.exval,)` and `tb = repr(exception)` is the repr of that tuple; the
first found task's failure callback receives both.  An unknown task id is only
logged. -/
def failed (q : TaskQueue) (reply : Reply) : TaskQueue :=
  let taskid := reply.any
  match q.findById taskid with
  | [] => q
  | _ :: _ =>
      let exception := PyVal.tupCons reply.exval PyVal.tupNil
      let tb := pyRepr exception
      { q with tasks := updateFirst q.tasks taskid (fun t => t.failed exception tb) }

end ReplyHandler

-- snapshot persistence and crash recovery -------------------------------------

/-- Modelled from the spec: a persisted task snapshot — "a durable, serializable
projection of a Task sufficient to reconstruct it (id, payload reference, args,
kwargs, timeout, state, scheduling info)" (spec 3; the TaskSnapshot class of
pulp.server.db.model.persistence is not under src).  `_id` is the durable record
key. -/
structure TaskSnapshot : Type where
  _id : String
  taskId : String
  method : String
  args : List PyVal
  kwargs : List (String × PyVal)
  timeout : Option Nat
  taskType : String
  state : TaskState
  deriving DecidableEq

/-- Modelled from the spec: `TaskSnapshot.to_task` — "every persisted snapshot is
loaded, reconstructed into a Task in waiting state (its prior running assumption
is considered invalid since the executing process died)" (spec 3; the class is
not under src). -/
def TaskSnapshot.to_task (s : TaskSnapshot) : Task :=
  { id := s.taskId, method := s.method, args := s.args, kwargs := s.kwargs,
    timeout := s.timeout, taskType := s.taskType, state := .waiting,
    result := none, exception := none, tracebackRepr := none,
    progress := [], synchronizer := none }

/-- The durable snapshot collection (`TaskSnapshot.get_collection()`), with a write
acknowledgement oracle for safe removes keyed by record id. -/
structure SnapshotCollection : Type where
  records : List TaskSnapshot
  removeOk : String → Bool

/-- Modelled from the spec: `collection.remove({_id: id}, safe=True)` removes the
record with the given id and returns the acknowledgement's ok flag (the
collection object is external).  An unacknowledged remove leaves the store
unchanged. -/
def SnapshotCollection.removeById (c : SnapshotCollection) (i : String) :
    SnapshotCollection × Bool :=
  if c.removeOk i then
    ({ c with records := c.records.filter (fun s => decide (s._id ≠ i)) }, true)
  else
    (c, false)

/-- The removal loop of `_load_persisted_tasks`: removes each listed id with
`safe=True` and raises on the first remove whose acknowledgement is not ok. -/
def removeAll (c : SnapshotCollection) : List String → Except PyErr SnapshotCollection
  | [] => .ok c
  | i :: is =>
      let (c2, ack) := c.removeById i
      if ack then removeAll c2 is
      else .error (.exceptionErr "last_error not ok")

/-- The enqueue loop of `_load_persisted_tasks`: submits each reconstructed task
through the module-level `enqueue` (with its default `unique=True`), ignoring the
returned handle; an exception escaping `enqueue` propagates. -/
def enqueueAll (q : TaskQueue) : List Task → Except PyErr TaskQueue
  | [] => .ok q
  | t :: ts =>
      match enqueue q t true with
      | .error e => .error e
      | .ok (q2, _) => enqueueAll q2 ts

/-- Embeds `_load_persisted_tasks` (async.py lines 126-141): loads every snapshot
from the collection, reconstructs each into a Task, removes every loaded record
(raising if a remove is not acknowledged), and re-enqueues the reconstructed
tasks. -/
def _load_persisted_tasks (c : SnapshotCollection) (q : TaskQueue) :
    Except PyErr (SnapshotCollection × TaskQueue) :=
  let snapshot_ids := c.records.map (fun s => s._id)
  let tasks := c.records.map TaskSnapshot.to_task
  match removeAll c snapshot_ids with
  | .error e => .error e
  | .ok c2 =>
      match enqueueAll q tasks with
      | .error e => .error e
      | .ok q2 => .ok (c2, q2)

-- configuration and initialization --------------------------------------------

/-- The server configuration: a list of (section, option, value) entries, as read
by `config.config`. -/
structure Config : Type where
  entries : List (String × String × String)

/-- `config.config.get(section, option)`: the first value recorded for the
option; `none` models the lookup error for a missing option. -/
def Config.get (c : Config) (sec opt : String) : Option String :=
  (c.entries.find? (fun e => decide (e.1 = sec) && decide (e.2.1 = opt))).map
    (fun e => e.2.2)

/-- Value of a decimal digit character. -/
def digitVal (c : Char) : Option Nat :=
  if '0' ≤ c ∧ c ≤ '9' then some (c.toNat - '0'.toNat) else none

/-- Parse a non-empty digit sequence, folding into the accumulator. -/
def parseDigits : List Char → Option Nat → Option Nat
  | [], acc => acc
  | c :: cs, acc =>
      match digitVal c, acc with
      | some d, some n => parseDigits cs (some (n * 10 + d))
      | some d, none => parseDigits cs (some d)
      | none, _ => none

/-- Python `int(s)` on an optionally-minus-signed decimal string; `none` models
the `ValueError` on anything else. -/
def parseIntStr (s : String) : Option Int :=
  match s.data with
  | '-' :: rest => (parseDigits rest none).map (fun n => -(n : Int))
  | ds => (parseDigits ds none).map (fun n => (n : Int))

/-- `config.config.getint(section, option)`: `none` models the exception raised
when the option is missing or not an integer. -/
def Config.getint (c : Config) (sec opt : String) : Option Int :=
  (c.get sec opt).bind parseIntStr

/-- `config.config.has_option(section, option)`. -/
def Config.has_option (c : Config) (sec opt : String) : Bool :=
  (c.get sec opt).isSome

/-- A parsed duration (`datetime.timedelta`), kept as its source text.  Modelled
from the spec: `schedule_threshold` is a "duration; skip-if-stale window"
(spec 6). -/
structure TimeDelta : Type where
  raw : String
  deriving DecidableEq

/-- Modelled from the spec: `config.parse_time_delta` parses a duration string
(pulp.server.config is not under src); the model keeps the source text as the
parsed value. -/
def parse_time_delta (s : String) : TimeDelta := ⟨s⟩

/-- Embeds `_configured_schedule_threshold` (async.py lines 121-123). -/
def _configured_schedule_threshold (cfg : Config) : Option TimeDelta :=
  (cfg.get "tasking" "schedule_threshold").map parse_time_delta

/-- The constructor arguments `initialize` passes to `TaskQueue(...)`
(async.py lines 157-161), except the storage object. -/
structure QueueArgs : Type where
  max_concurrency : Int
  failure_threshold : Option Int
  schedule_threshold : TimeDelta
  dispatch_interval : Int
  deriving DecidableEq

/-- Embeds the configuration-reading part of `initialize` (async.py lines
148-161): reads `concurrency_threshold`, overrides it with the deprecated
`max_concurrent` option when that option is present (the accompanying
deprecation warning is a log-only effect), reads `failure_threshold` and maps
values below 1 to `None`, parses `schedule_threshold`, and passes the literal
`5` as `dispatch_interval`.  `none` models an exception escaping a config
read. -/
def init_queue_args (cfg : Config) : Option QueueArgs :=
  match cfg.getint "tasking" "concurrency_threshold" with
  | none => none
  | some ct0 =>
      match (if cfg.has_option "tasking" "max_concurrent" then
               cfg.getint "tasking" "max_concurrent"
             else some ct0) with
      | none => none
      | some concurrency_threshold =>
          match cfg.getint "tasking" "failure_threshold" with
          | none => none
          | some ft0 =>
              let failure_threshold : Option Int :=
                if ft0 < 1 then none else some ft0
              match _configured_schedule_threshold cfg with
              | none => none
              | some schedule_threshold =>
                  some { max_concurrency := concurrency_threshold,
                         failure_threshold := failure_threshold,
                         schedule_threshold := schedule_threshold,
                         dispatch_interval := 5 }

/-- Embeds `initialize` (async.py lines 144-162): reads the configuration,
constructs the global queue (empty registry over the given snapshot storage
oracle) with the computed constructor arguments, and runs
`_load_persisted_tasks`. -/
def init_async_subsystem (cfg : Config) (storage : String → SaveOutcome)
    (c : SnapshotCollection) :
    Except PyErr (QueueArgs × SnapshotCollection × TaskQueue) :=
  match init_queue_args cfg with
  | none => .error (.exceptionErr "configuration")
  | some queueArgs =>
      match _load_persisted_tasks c { tasks := [], saveOutcome := storage } with
      | .error e => .error e
      | .ok (c2, q2) => .ok (queueArgs, c2, q2)

-- repo api (repo.py) ----------------------------------------------------------

/-- The slice of a repository document that `RepoApi.sync` reads: its id and its
optional `source` field, a document whose `type` is the source type (yum, rhn,
local) and whose `url` is the feed url. -/
structure Repo : Type where
  id : String
  source : Option (String × String)
  deriving DecidableEq

namespace RepoApi

/-- Embeds `RepoApi.clone` (repo.py lines 303-316): submits `_clone` through
`run_async` (with the default `unique=True`), then calls `task.set_progress`
with the local callback when the feed is `feedless` or `parent` and with the
yum/rhn callback otherwise.  When the submission returned `None`, that call is
an attribute access on `None` and raises `AttributeError`.  `groupid` and
`relative_path` are the remaining positional arguments. -/
def clone (q : TaskQueue) (newId : String) (pid clone_id clone_name feed : String)
    (groupid relative_path : PyVal) (timeout : Option Nat) :
    Except PyErr (TaskQueue × Option Task) :=
  match run_async q newId "_clone"
      [.str pid, .str clone_id, .str clone_name, .str feed, groupid, relative_path]
      [] timeout true "Task" with
  | .error e => .error e
  | .ok (_, none) => .error (.attributeError "set_progress")
  | .ok (q2, some t) =>
      let t2 :=
        if feed = "feedless" ∨ feed = "parent" then
          t.set_progress "progress_callback" "local_progress_callback"
        else
          t.set_progress "progress_callback" "yum_rhn_progress_callback"
      .ok ({ q2 with tasks := updateFirst q2.tasks t.id (fun _ => t2) }, some t2)

/-- Embeds `RepoApi.sync` (repo.py lines 1359-1380): submits `_sync` through
`run_async` (with the default `unique=True` and `task_type=RepoSyncTask`); when
the repo's source is set, calls `task.set_progress` for the yum/rhn and local
source types (`elif source_type in ('local')` is a substring test against the
string `'local'`), then `task.set_synchronizer`.  When the submission returned
`None`, the first of those calls is an attribute access on `None` and raises
`AttributeError`; with no source set, the `None` handle is returned.
`get_synchronizer` (external pulp.server.api.repo_sync) is modelled as attaching
the source type. -/
def sync (q : TaskQueue) (newId : String) (repo : Repo) (skip : PyVal)
    (timeout : Option Nat) : Except PyErr (TaskQueue × Option Task) :=
  match run_async q newId "_sync" [.str repo.id, skip] [] timeout true
      "RepoSyncTask" with
  | .error e => .error e
  | .ok (q2, task) =>
      match repo.source with
      | none => .ok (q2, task)
      | some (source_type, _) =>
          match task with
          | none =>
              .error (.attributeError
                (if source_type = "yum" ∨ source_type = "rhn" ∨
                    (source_type.data <:+: "local".data) then
                   "set_progress"
                 else
                   "set_synchronizer"))
          | some t =>
              let t2 :=
                if source_type = "yum" ∨ source_type = "rhn" then
                  t.set_progress "progress_callback" "yum_rhn_progress_callback"
                else if source_type.data <:+: "local".data then
                  t.set_progress "progress_callback" "local_progress_callback"
                else t
              let t3 := t2.set_synchronizer source_type
              .ok ({ q2 with tasks := updateFirst q2.tasks t.id (fun _ => t3) },
                   some t3)

end RepoApi

/-- Which RepoApi entry point a process invocation calls. -/
inductive RepoApiCall : Type where
  | callSync (repoId : String)
  | callUnderscoreSync (repoId : String)
  | noCall
  deriving DecidableEq

/-- Embeds the `__main__` block of repo.py (lines 1575-1593), the cron-equivalent
"run scheduled sync" entry point: parses `--repoid` and, when a repository id was
given, invokes `RepoApi._sync(options.repo_id)` directly; otherwise it does
nothing. -/
def scheduled_sync_main (repo_id : Option String) : RepoApiCall :=
  match repo_id with
  | some r => .callUnderscoreSync r
  | none => .noCall

/-- The task-queue submission each entry point performs, as (method, unique):
`RepoApi.sync` submits `_sync` through `run_async`, whose `unique` parameter
defaults to `True` (repo.py lines 1365-1369, async.py line 60); `RepoApi._sync`
(repo.py lines 1297-1357) runs the synchronization in-process through
`repo_sync.sync` and performs no queue submission. -/
def submissionOf : RepoApiCall → Option (String × Bool)
  | .callSync _ => some ("_sync", true)
  | .callUnderscoreSync _ => none
  | .noCall => none

-- remote agent proxies (async.py, RemoteClass) --------------------------------

/-- A `RemoteClass` instance: the double-underscore attributes set by `__init__`
are stored under their name-mangled keys `_RemoteClass__id`, `_RemoteClass__secret`,
`_RemoteClass__options`, `_RemoteClass__name`, `_RemoteClass__taskid`; the plain
`taskid` attribute exists only after `__call__` ran (`self.taskid = task.id`). -/
structure RemoteClassObj : Type where
  rid : String
  secret : String
  options : PyVal
  cname : String
  mangledTaskid : PyVal
  taskidAttr : Option PyVal
  deriving DecidableEq

/-- Embeds `RemoteClass.__init__` (async.py lines 232-247): stores id, secret,
options and name under mangled keys and sets `self.__taskid = 0`; the plain
`taskid` attribute is not set. -/
def RemoteClassObj.make (id secret : String) (options : PyVal) (name : String) :
    RemoteClassObj :=
  { rid := id, secret := secret, options := options, cname := name,
    mangledTaskid := .int 0, taskidAttr := none }

/-- Embeds `RemoteClass.__call__` (async.py lines 249-261): sets the plain
`taskid` attribute to the associated task's id and replaces the options with the
merged dict (passed here already merged, as an opaque value). -/
def RemoteClassObj.call (rc : RemoteClassObj) (task : Task) (merged : PyVal) :
    RemoteClassObj :=
  { rc with taskidAttr := some (.str task.id), options := merged }

/-- Python `name.startswith("__")`, as a test on the character sequence. -/
def startsWithDunder (name : String) : Bool :=
  "__".data.isPrefixOf name.data

/-- The instance `__dict__` of a `RemoteClass` object. -/
def RemoteClassObj.instanceDict (rc : RemoteClassObj) (name : String) :
    Option PyVal :=
  if name = "_RemoteClass__id" then some (.str rc.rid)
  else if name = "_RemoteClass__secret" then some (.str rc.secret)
  else if name = "_RemoteClass__options" then some rc.options
  else if name = "_RemoteClass__name" then some (.str rc.cname)
  else if name = "_RemoteClass__taskid" then some rc.mangledTaskid
  else if name = "taskid" then rc.taskidAttr
  else none

/-- Embeds Python attribute access on a `RemoteClass` instance: normal lookup in
the instance `__dict__` first, then `RemoteClass.__getattr__` (async.py lines
263-279).  On a name that does not start with `__`, `__getattr__` evaluates
`self.taskid` (re-entering this very lookup when the plain `taskid` attribute is
absent) and wraps it in a `RemoteMethod`; on a name starting with `__` it reads
`self.__dict__[name]` (a `KeyError` on an absent key is modelled as `none`).
The fuel argument bounds the recursion depth: `none` means no attribute value
was produced within that depth. -/
def pyGetattr (rc : RemoteClassObj) : Nat → String → Option PyVal
  | 0, _ => none
  | Nat.succ n, name =>
      match rc.instanceDict name with
      | some v => some v
      | none =>
          if startsWithDunder name then rc.instanceDict name
          else
            (pyGetattr rc n "taskid").map
              (fun tid => .remoteMethod rc.rid rc.secret rc.cname rc.options tid name)

-- concrete fixtures used by witnesses and counterexamples ---------------------

/-- A waiting `_sync` task for repo `r1`. -/
def wTask : Task :=
  { id := "t1", method := "_sync", args := [.str "r1", .pyNone], kwargs := [],
    timeout := none, taskType := "RepoSyncTask", state := .waiting,
    result := none, exception := none, tracebackRepr := none,
    progress := [], synchronizer := none }

/-- An empty registry whose snapshot saves all succeed. -/
def wQueueEmpty : TaskQueue := { tasks := [], saveOutcome := fun _ => .ok }

/-- A registry holding only `wTask`, with succeeding snapshot saves. -/
def wQueueOne : TaskQueue := { tasks := [wTask], saveOutcome := fun _ => .ok }

/-- A configuration that also sets `[tasking] dispatch_interval`, which
`initialize` never reads. -/
def cfgDispatchTen : Config :=
  ⟨[("tasking", "concurrency_threshold", "4"),
    ("tasking", "failure_threshold", "2"),
    ("tasking", "schedule_threshold", "12:00"),
    ("tasking", "dispatch_interval", "10")]⟩

/-- A configuration with the deprecated `[tasking] max_concurrent` option set. -/
def cfgMaxConcurrent : Config :=
  ⟨[("tasking", "concurrency_threshold", "4"),
    ("tasking", "max_concurrent", "7"),
    ("tasking", "failure_threshold", "2"),
    ("tasking", "schedule_threshold", "12:00")]⟩

-- helper lemmas ---------------------------------------------------------------

/-- Splitting lemma for `updateFirst`: when some task carries the id, the list
splits around the first such task, which `updateFirst` replaces. -/
theorem updateFirst_split (l : List Task) (taskid : String) (f : Task → Task)
    (h : ∃ t ∈ l, t.id = taskid) :
    ∃ pre t post, l = pre ++ t :: post ∧ (∀ u ∈ pre, u.id ≠ taskid) ∧
      t.id = taskid ∧ updateFirst l taskid f = pre ++ f t :: post := by
  induction l with
  | nil => simp at h
  | cons x xs ih =>
      by_cases hx : x.id = taskid
      · exact ⟨[], x, xs, rfl, by simp, hx, by simp [updateFirst, hx]⟩
      · obtain ⟨t, ht, hid⟩ := h
        rcases List.mem_cons.mp ht with rfl | hmem
        · exact absurd hid hx
        · obtain ⟨pre, t0, post, hsplit, hpre, hid0, hupd⟩ := ih ⟨t, hmem, hid⟩
          refine ⟨x :: pre, t0, post, by simp [hsplit], ?_, hid0,
            by simp [updateFirst, hx, hupd]⟩
          intro u hu
          rcases List.mem_cons.mp hu with rfl | hu
          · exact hx
          · exact hpre u hu

/-- A task with the looked-up id makes `findById` non-empty. -/
theorem findById_ne_nil_of_mem (q : TaskQueue) (taskid : String)
    (h : ∃ t ∈ q.tasks, t.id = taskid) : q.findById taskid ≠ [] := by
  obtain ⟨t, ht, hid⟩ := h
  intro hnil
  rw [TaskQueue.findById, List.filter_eq_nil_iff] at hnil
  have := hnil t ht
  simp at this
  exact this hid

/-- Without a task carrying the looked-up id, `findById` is empty. -/
theorem findById_eq_nil (q : TaskQueue) (taskid : String)
    (h : ∀ t ∈ q.tasks, t.id ≠ taskid) : q.findById taskid = [] := by
  rw [TaskQueue.findById, List.filter_eq_nil_iff]
  intro t ht
  simpa using h t ht

/-- A matching active task makes the module-level unique enqueue return `None`
(the `NonUniqueTaskException` is caught and logged) without touching the
registry. -/
theorem enqueue_dup (q : TaskQueue) (t : Task)
    (h : ∃ u ∈ q.tasks, u.matchesKey t = true ∧ u.isActive = true) :
    enqueue q t true = .ok (q, none) := by
  obtain ⟨u, hu, h1, h2⟩ := h
  have hany : q.tasks.any (fun u => u.matchesKey t && u.isActive) = true :=
    List.any_eq_true.mpr ⟨u, hu, by simp [h1, h2]⟩
  simp [enqueue, TaskQueue.enqueueImpl, hany]

/-- Admission of a task with no matching active entry and a successful snapshot
save appends it in waiting state and returns it. -/
theorem enqueue_fresh (q : TaskQueue) (t : Task)
    (hno : q.tasks.any (fun u => u.matchesKey t && u.isActive) = false)
    (hsave : q.saveOutcome t.id = .ok) :
    enqueue q t true =
      .ok ({ q with tasks := q.tasks ++ [{ t with state := .waiting }] },
           some t) := by
  simp [enqueue, TaskQueue.enqueueImpl, hno, hsave]

/-- Every submission in a sequence whose key is already active in the registry
is rejected with `None`, leaving the registry unchanged. -/
theorem submitSeq_rejected (q : TaskQueue) (ts : List Task)
    (h : ∀ s ∈ ts, ∃ u ∈ q.tasks, u.matchesKey s = true ∧ u.isActive = true) :
    submitSeq q ts = .ok (q, ts.map (fun _ => none)) := by
  induction ts with
  | nil => rfl
  | cons s ss ih =>
      have h1 := enqueue_dup q s (h s (List.mem_cons_self s ss))
      have h2 := ih (fun x hx => h x (List.mem_cons_of_mem s hx))
      simp [submitSeq, h1, h2]

/-- An unacknowledged safe remove makes the removal loop raise. -/
theorem removeAll_error (c : SnapshotCollection) (ids : List String)
    (h : ∃ i ∈ ids, c.removeOk i = false) :
    ∃ e, removeAll c ids = .error e := by
  induction ids generalizing c with
  | nil => simp at h
  | cons i is ih =>
      by_cases hi : c.removeOk i = true
      · obtain ⟨j, hj, hjf⟩ := h
        rcases List.mem_cons.mp hj with rfl | hmem
        · simp [hi] at hjf
        · obtain ⟨e, he⟩ := ih
            { c with records := c.records.filter (fun s => decide (s._id ≠ i)) }
            ⟨j, hmem, hjf⟩
          refine ⟨e, ?_⟩
          simp only [removeAll, SnapshotCollection.removeById, hi, if_true]
          exact he
      · refine ⟨.exceptionErr "last_error not ok", ?_⟩
        simp only [Bool.not_eq_true] at hi
        simp [removeAll, SnapshotCollection.removeById, hi]

/-- Acknowledged removes drop exactly the listed record ids. -/
theorem removeAll_ok (c : SnapshotCollection) (ids : List String)
    (h : ∀ i ∈ ids, c.removeOk i = true) :
    removeAll c ids =
      .ok { c with
              records := c.records.filter (fun s => decide (s._id ∉ ids)) } := by
  induction ids generalizing c with
  | nil => simp [removeAll]
  | cons i is ih =>
      have hi := h i (List.mem_cons_self i is)
      have hrec := ih
        { c with records := c.records.filter (fun s => decide (s._id ≠ i)) }
        (fun j hj => h j (List.mem_cons_of_mem i hj))
      have hpred : ∀ s ∈ c.records,
          (decide (s._id ∉ is) && decide (s._id ≠ i)) =
            decide (s._id ∉ i :: is) := by
        intro s _
        by_cases h1 : s._id = i <;> by_cases h2 : s._id ∈ is <;>
          simp [h1, h2, List.mem_cons]
      simp only [removeAll, SnapshotCollection.removeById, hi, if_true, hrec]
      congr 2
      rw [List.filter_filter]
      exact List.filter_congr hpred

/-- Submitting pairwise-distinct fresh keys through the module-level enqueue
appends them all in waiting state. -/
theorem enqueueAll_fresh (q : TaskQueue) (ts : List Task)
    (hsave : ∀ i, q.saveOutcome i = .ok)
    (hnew : ∀ s ∈ ts, ∀ u ∈ q.tasks, (u.matchesKey s && u.isActive) = false)
    (hdist : ts.Pairwise (fun a b => a.matchesKey b = false)) :
    enqueueAll q ts =
      .ok { q with
              tasks := q.tasks ++
                ts.map (fun t => { t with state := .waiting }) } := by
  induction ts generalizing q with
  | nil => simp [enqueueAll]
  | cons t ts ih =>
      obtain ⟨hhead, htail⟩ := List.pairwise_cons.mp hdist
      have hany : q.tasks.any (fun u => u.matchesKey t && u.isActive) = false := by
        rw [List.any_eq_false]
        intro u hu
        simp [hnew t (List.mem_cons_self t ts) u hu]
      have h1 := enqueue_fresh q t hany (hsave t.id)
      have hnew1 : ∀ s ∈ ts,
          ∀ u ∈ (q.tasks ++ [{ t with state := TaskState.waiting }]),
          (u.matchesKey s && u.isActive) = false := by
        intro s hs u hu
        rcases List.mem_append.mp hu with hu | hu
        · exact hnew s (List.mem_cons_of_mem t hs) u hu
        · rcases List.mem_singleton.mp hu with rfl
          have : Task.matchesKey { t with state := TaskState.waiting } s =
              t.matchesKey s := rfl
          simp [this, hhead s hs]
      have h2 := ih { q with tasks := q.tasks ++ [{ t with state := .waiting }] }
        hsave hnew1 htail
      simp [enqueueAll, h1, h2]

-- claim theorems --------------------------------------------------------------

/-- C5 counterexample: with `--repoid r1`, the cron-equivalent entry point
invokes `RepoApi._sync("r1")` directly; it performs no enqueue at all, so in
particular it does not map onto an `enqueue` call with `unique=true`. -/
theorem scheduled_sync_bypasses_queue_cex :
    scheduled_sync_main (some "r1") = .callUnderscoreSync "r1" ∧
    submissionOf (scheduled_sync_main (some "r1")) = none :=
  ⟨rfl, rfl⟩

/-- C5 (amended): the cron-equivalent "run scheduled sync" entry point, invoked
with a repository id, calls `RepoApi._sync` directly, executing the sync
synchronously in the invoking process with no task-queue submission; the queue
path with `unique=true` belongs to `RepoApi.sync`, which the entry point does
not use. -/
theorem scheduled_sync_runs_direct :
    (∀ r, scheduled_sync_main (some r) = .callUnderscoreSync r) ∧
    (∀ r, submissionOf (scheduled_sync_main (some r)) = none) ∧
    scheduled_sync_main none = .noCall ∧
    (∀ r, submissionOf (.callSync r) = some ("_sync", true)) :=
  ⟨fun _ => rfl, fun _ => rfl, rfl, fun _ => rfl⟩

/-- C7 counterexample: with `[tasking] dispatch_interval = 10` in the
configuration, `initialize` still constructs the queue with
`dispatch_interval = 5`: the option is never read. -/
theorem dispatch_interval_hardcoded_cex :
    cfgDispatchTen.getint "tasking" "dispatch_interval" = some 10 ∧
    init_queue_args cfgDispatchTen =
      some { max_concurrency := 4, failure_threshold := some 2,
             schedule_threshold := ⟨"12:00"⟩, dispatch_interval := 5 } := by
  decide

/-- C7 (amended): `initialize` reads three configuration inputs
(`concurrency_threshold`, `failure_threshold`, `schedule_threshold`; plus the
deprecated `max_concurrent` override): `concurrency_threshold` becomes
`max_concurrency`, a `failure_threshold` below 1 is passed as `None`,
`schedule_threshold` is parsed as a duration; `dispatch_interval` is not a
configuration input but the hardcoded constant 5. -/
theorem init_reads_config_thresholds (cfg : Config) (a f : Int) (s : String)
    (h1 : cfg.getint "tasking" "concurrency_threshold" = some a)
    (h2 : cfg.has_option "tasking" "max_concurrent" = false)
    (h3 : cfg.getint "tasking" "failure_threshold" = some f)
    (h4 : cfg.get "tasking" "schedule_threshold" = some s) :
    init_queue_args cfg =
      some { max_concurrency := a,
             failure_threshold := if f < 1 then none else some f,
             schedule_threshold := parse_time_delta s,
             dispatch_interval := 5 } := by
  simp [init_queue_args, h1, h2, h3, _configured_schedule_threshold, h4]

/-- C7 witness: the amended theorem applied to `cfgDispatchTen`. -/
theorem init_reads_config_thresholds_witness :
    cfgDispatchTen.getint "tasking" "concurrency_threshold" = some 4 ∧
    cfgDispatchTen.has_option "tasking" "max_concurrent" = false ∧
    init_queue_args cfgDispatchTen =
      some { max_concurrency := 4,
             failure_threshold := if (2 : Int) < 1 then none else some 2,
             schedule_threshold := parse_time_delta "12:00",
             dispatch_interval := 5 } :=
  ⟨by decide, by decide,
   init_reads_config_thresholds cfgDispatchTen 4 2 "12:00"
     (by decide) (by decide) (by decide) (by decide)⟩

/-- C10: when `[tasking] max_concurrent` is present its value overrides
`concurrency_threshold` as `max_concurrency`, otherwise `concurrency_threshold`
is used (the deprecation warning is a log-only effect, not modelled). -/
theorem max_concurrent_override (cfg : Config) (a f : Int) (s : String)
    (h1 : cfg.getint "tasking" "concurrency_threshold" = some a)
    (h3 : cfg.getint "tasking" "failure_threshold" = some f)
    (h4 : cfg.get "tasking" "schedule_threshold" = some s) :
    (∀ m, cfg.has_option "tasking" "max_concurrent" = true →
      cfg.getint "tasking" "max_concurrent" = some m →
      ∃ p, init_queue_args cfg = some p ∧ p.max_concurrency = m) ∧
    (cfg.has_option "tasking" "max_concurrent" = false →
      ∃ p, init_queue_args cfg = some p ∧ p.max_concurrency = a) := by
  constructor
  · intro m hopt hm
    have h : init_queue_args cfg =
        some { max_concurrency := m,
               failure_threshold := if f < 1 then none else some f,
               schedule_threshold := parse_time_delta s,
               dispatch_interval := 5 } := by
      simp [init_queue_args, h1, hopt, hm, h3, _configured_schedule_threshold, h4]
    exact ⟨_, h, rfl⟩
  · intro hopt
    have h : init_queue_args cfg =
        some { max_concurrency := a,
               failure_threshold := if f < 1 then none else some f,
               schedule_threshold := parse_time_delta s,
               dispatch_interval := 5 } := by
      simp [init_queue_args, h1, hopt, h3, _configured_schedule_threshold, h4]
    exact ⟨_, h, rfl⟩

/-- C10 witness: the override theorem applied to `cfgMaxConcurrent`, where the
deprecated option (value 7) wins over `concurrency_threshold` (value 4). -/
theorem max_concurrent_override_witness :
    cfgMaxConcurrent.has_option "tasking" "max_concurrent" = true ∧
    ∃ p, init_queue_args cfgMaxConcurrent = some p ∧ p.max_concurrency = 7 :=
  ⟨by decide,
   (max_concurrent_override cfgMaxConcurrent 4 2 "12:00"
       (by decide) (by decide) (by decide)).1 7 (by decide) (by decide)⟩

/-- C9: on a `RemoteClass` instance whose `__call__` never ran (no plain
`taskid` attribute), any attribute access that reaches `__getattr__` (the name
is not in the instance `__dict__`) with a name not starting with `__` produces
no value at any recursion depth: `__getattr__` evaluates `self.taskid`, which
re-enters the lookup for `taskid` without bound, so no `RemoteMethod` is ever
produced. -/
theorem remoteclass_getattr_no_termination (rc : RemoteClassObj)
    (hcall : rc.taskidAttr = none) :
    (∀ n, pyGetattr rc n "taskid" = none) ∧
    (∀ name n, startsWithDunder name = false → rc.instanceDict name = none →
      pyGetattr rc n name = none) := by
  have hdict : rc.instanceDict "taskid" = none := by
    simp [RemoteClassObj.instanceDict, hcall]
  have hsw : startsWithDunder "taskid" = false := by decide
  have key : ∀ n, pyGetattr rc n "taskid" = none := by
    intro n
    induction n with
    | zero => rfl
    | succ n ih => simp [pyGetattr, hdict, hsw, ih]
  refine ⟨key, ?_⟩
  intro name n hpre hnone
  cases n with
  | zero => rfl
  | succ n => simp [pyGetattr, hnone, hpre, key n]

/-- C3: a success reply updates the (first) registered task with the looked-up
id to `succeeded` with the reply's returned value, leaving the other tasks
unchanged; a success reply whose id matches no registered task leaves the
registry unchanged (logged and discarded, no error). -/
theorem success_reply_dispatch (q : TaskQueue) (r : Reply) :
    ((∃ t ∈ q.tasks, t.id = r.any) →
      ∃ pre t post, q.tasks = pre ++ t :: post ∧ (∀ u ∈ pre, u.id ≠ r.any) ∧
        t.id = r.any ∧
        (ReplyHandler.succeeded q r).tasks =
          pre ++ { t with state := .succeeded, result := some r.retval } :: post) ∧
    ((∀ t ∈ q.tasks, t.id ≠ r.any) → ReplyHandler.succeeded q r = q) := by
  constructor
  · intro h
    obtain ⟨pre, t, post, hsplit, hpre, hid, hupd⟩ :=
      updateFirst_split q.tasks r.any (fun t => t.succeeded r.retval) h
    refine ⟨pre, t, post, hsplit, hpre, hid, ?_⟩
    have hne := findById_ne_nil_of_mem q r.any h
    cases hfind : q.findById r.any with
    | nil => exact absurd hfind hne
    | cons a l =>
        simpa [ReplyHandler.succeeded, hfind] using hupd
  · intro h
    simp [ReplyHandler.succeeded, findById_eq_nil q r.any h]

/-- C3 witness: a reply with value 42 for the registered task `t1`. -/
theorem success_reply_dispatch_witness :
    (∃ t ∈ wQueueOne.tasks, t.id = "t1") ∧
    (∃ pre t post, wQueueOne.tasks = pre ++ t :: post ∧
      (∀ u ∈ pre, u.id ≠ "t1") ∧ t.id = "t1" ∧
      (ReplyHandler.succeeded wQueueOne
          { sn := 1, any := "t1", retval := .int 42, exval := .pyNone }).tasks =
        pre ++ { t with state := .succeeded, result := some (.int 42) } :: post) :=
  ⟨by decide,
   (success_reply_dispatch wQueueOne
       { sn := 1, any := "t1", retval := .int 42, exval := .pyNone }).1
     (by decide)⟩

/-- The failure reply delivered to the counterexample queue: correlation id
`t1`, remote exception value the string `boom`. -/
def cxFailReply : Reply :=
  { sn := 1, any := "t1", retval := .pyNone, exval := .str "boom" }

/-- C4 counterexample: on a failure reply with `exval = "boom"` for registered
task `t1`, the failure callback does not receive the remote exception value
itself: it receives the one-element tuple `("boom",)` (built by the trailing
comma in `exception = reply.exval,`), and its traceback argument is the repr of
that tuple — a function of the exception value alone, not a remote traceback. -/
theorem failure_reply_tuple_cex :
    (ReplyHandler.failed wQueueOne cxFailReply).tasks.map (fun t => t.exception) =
      [some (PyVal.tupCons (.str "boom") .tupNil)] ∧
    ¬((ReplyHandler.failed wQueueOne cxFailReply).tasks.map (fun t => t.exception) =
      [some (PyVal.str "boom")]) ∧
    (ReplyHandler.failed wQueueOne cxFailReply).tasks.map
        (fun t => t.tracebackRepr) =
      [some (pyRepr (PyVal.tupCons (.str "boom") .tupNil))] := by
  decide

/-- C4 (amended): a failure reply whose correlation payload matches a
registered task invokes that task's failure callback with the one-element tuple
wrapping the remote exception value and with the Python repr of that tuple
standing in for the remote traceback; a failure reply for an unknown/expired
task id leaves the registry unchanged (logged and dropped, not escalated). -/
theorem failure_reply_dispatch (q : TaskQueue) (r : Reply) :
    ((∃ t ∈ q.tasks, t.id = r.any) →
      ∃ pre t post, q.tasks = pre ++ t :: post ∧ (∀ u ∈ pre, u.id ≠ r.any) ∧
        t.id = r.any ∧
        (ReplyHandler.failed q r).tasks =
          pre ++
            { t with
                state := .failed,
                exception := some (PyVal.tupCons r.exval .tupNil),
                tracebackRepr :=
                  some (pyRepr (PyVal.tupCons r.exval .tupNil)) } :: post) ∧
    ((∀ t ∈ q.tasks, t.id ≠ r.any) → ReplyHandler.failed q r = q) := by
  constructor
  · intro h
    obtain ⟨pre, t, post, hsplit, hpre, hid, hupd⟩ :=
      updateFirst_split q.tasks r.any
        (fun t => t.failed (PyVal.tupCons r.exval .tupNil)
          (pyRepr (PyVal.tupCons r.exval .tupNil))) h
    refine ⟨pre, t, post, hsplit, hpre, hid, ?_⟩
    have hne := findById_ne_nil_of_mem q r.any h
    cases hfind : q.findById r.any with
    | nil => exact absurd hfind hne
    | cons a l =>
        simpa [ReplyHandler.failed, hfind] using hupd
  · intro h
    simp [ReplyHandler.failed, findById_eq_nil q r.any h]

/-- C4 witness: the amended theorem applied to the registered task `t1` and the
`boom` failure reply. -/
theorem failure_reply_dispatch_witness :
    (∃ t ∈ wQueueOne.tasks, t.id = cxFailReply.any) ∧
    (∃ pre t post, wQueueOne.tasks = pre ++ t :: post ∧
      (∀ u ∈ pre, u.id ≠ cxFailReply.any) ∧ t.id = cxFailReply.any ∧
      (ReplyHandler.failed wQueueOne cxFailReply).tasks =
        pre ++
          { t with
              state := .failed,
              exception := some (PyVal.tupCons cxFailReply.exval .tupNil),
              tracebackRepr :=
                some (pyRepr (PyVal.tupCons cxFailReply.exval .tupNil)) }
          :: post) :=
  ⟨by decide, (failure_reply_dispatch wQueueOne cxFailReply).1 (by decide)⟩

/-- C1: submitting a task whose key is not yet active (with a succeeding
snapshot save), followed by any sequence of submissions with the identical
derived key, hands the first submitter the task and every later submitter
`None` — returned normally, never as a raised exception — and `run_async`
likewise returns `None` whenever a task with the submitted key is active. -/
theorem unique_submission_first_wins (q : TaskQueue) (t : Task) (ts : List Task)
    (hno : q.tasks.any (fun u => u.matchesKey t && u.isActive) = false)
    (hsave : q.saveOutcome t.id = .ok)
    (hkeys : ∀ s ∈ ts, s.method = t.method ∧ s.args = t.args) :
    submitSeq q (t :: ts) =
      .ok ({ q with tasks := q.tasks ++ [{ t with state := .waiting }] },
           some t :: ts.map (fun _ => none)) ∧
    (∀ q2 newId kwargs timeout ttype,
      (∃ u ∈ q2.tasks, u.method = t.method ∧ u.args = t.args ∧
        u.isActive = true) →
      run_async q2 newId t.method t.args kwargs timeout true ttype =
        .ok (q2, none)) := by
  constructor
  · have h1 := enqueue_fresh q t hno hsave
    have hq1 : ∀ s ∈ ts,
        ∃ u ∈ (q.tasks ++ [{ t with state := TaskState.waiting }]),
          u.matchesKey s = true ∧ u.isActive = true := by
      intro s hs
      refine ⟨{ t with state := .waiting }, by simp, ?_, by simp [Task.isActive]⟩
      obtain ⟨hm, ha⟩ := hkeys s hs
      have : Task.matchesKey { t with state := TaskState.waiting } s =
          t.matchesKey s := rfl
      simp [this, Task.matchesKey, hm, ha]
    have h2 := submitSeq_rejected
      { q with tasks := q.tasks ++ [{ t with state := .waiting }] } ts hq1
    simp [submitSeq, h1, h2]
  · intro q2 newId kwargs timeout ttype hdup
    obtain ⟨u, hu, hm, ha, hact⟩ := hdup
    unfold run_async
    apply enqueue_dup
    exact ⟨u, hu, by simp [Task.matchesKey, hm, ha], hact⟩

/-- The second and third submissions with the key of `wTask`. -/
def wTask2 : Task := { wTask with id := "t2" }

/-- See `wTask2`. -/
def wTask3 : Task := { wTask with id := "t3" }

/-- C1 witness: three submissions of the `_sync r1` key into an empty registry;
the first returns the task, the other two return `None`. -/
theorem unique_submission_first_wins_witness :
    (wQueueEmpty.tasks.any (fun u => u.matchesKey wTask && u.isActive) = false) ∧
    submitSeq wQueueEmpty [wTask, wTask2, wTask3] =
      .ok ({ wQueueEmpty with tasks := [{ wTask with state := .waiting }] },
           [some wTask, none, none]) :=
  ⟨rfl, by
    have h := (unique_submission_first_wins wQueueEmpty wTask [wTask2, wTask3]
      rfl rfl (by decide)).1
    simpa using h⟩

/-- C6: a failing snapshot save during admission never yields a successful
submission: the caller receives `None` (DuplicateSnapshotError, caught and
logged) or the exception itself (any other persistence failure), never the task
handle; and an unacknowledged snapshot removal during recovery raises out of
`_load_persisted_tasks`, aborting `initialize` with an error. -/
theorem persistence_failures_surface (q : TaskQueue) (t : Task)
    (hfail : q.saveOutcome t.id ≠ .ok) :
    (∀ q2, enqueue q t true ≠ .ok (q2, some t)) ∧
    (∀ m, q.tasks.any (fun u => u.matchesKey t && u.isActive) = false →
      q.saveOutcome t.id = .fatal m →
      enqueue q t true = .error (.exceptionErr m)) ∧
    (q.tasks.any (fun u => u.matchesKey t && u.isActive) = false →
      q.saveOutcome t.id = .duplicateSnapshot →
      enqueue q t true = .ok (q, none)) ∧
    (∀ c q0, (∃ s ∈ c.records, c.removeOk s._id = false) →
      ∃ e, _load_persisted_tasks c q0 = .error e) ∧
    (∀ cfg storage c, (∃ s ∈ c.records, c.removeOk s._id = false) →
      ∃ e, init_async_subsystem cfg storage c = .error e) := by
  have hload : ∀ (c : SnapshotCollection) (q0 : TaskQueue),
      (∃ s ∈ c.records, c.removeOk s._id = false) →
      ∃ e, _load_persisted_tasks c q0 = .error e := by
    intro c q0 hex
    obtain ⟨s, hs, hf⟩ := hex
    obtain ⟨e, he⟩ := removeAll_error c (c.records.map (fun s => s._id))
      ⟨s._id, List.mem_map_of_mem _ hs, hf⟩
    exact ⟨e, by simp [_load_persisted_tasks, he]⟩
  refine ⟨?_, ?_, ?_, hload, ?_⟩
  · intro q2
    unfold enqueue TaskQueue.enqueueImpl
    cases hb : q.tasks.any (fun u => u.matchesKey t && u.isActive) with
    | true => simp [hb]
    | false =>
        cases hs : q.saveOutcome t.id with
        | ok => exact absurd hs hfail
        | duplicateSnapshot => simp [hb, hs]
        | fatal m => simp [hb, hs]
  · intro m hb hs
    simp [enqueue, TaskQueue.enqueueImpl, hb, hs]
  · intro hb hs
    simp [enqueue, TaskQueue.enqueueImpl, hb, hs]
  · intro cfg storage c hex
    cases harg : init_queue_args cfg with
    | none =>
        exact ⟨.exceptionErr "configuration", by simp [init_async_subsystem, harg]⟩
    | some p =>
        obtain ⟨e, he⟩ :=
          hload c { tasks := [], saveOutcome := storage } hex
        exact ⟨e, by simp [init_async_subsystem, harg, he]⟩

/-- A queue whose snapshot storage raises DuplicateSnapshotError on every save. -/
def wDupQueue : TaskQueue := { tasks := [], saveOutcome := fun _ => .duplicateSnapshot }

/-- A snapshot collection holding one record whose safe remove is never
acknowledged. -/
def wBadSnaps : SnapshotCollection :=
  ⟨[⟨"s1", "t1", "_sync", [.str "r1"], [], none, "RepoSyncTask", .running⟩],
   fun _ => false⟩

/-- C6 witness: a duplicate-snapshot save makes the enqueue return without the
task handle, and an unacknowledged remove aborts recovery with an error. -/
theorem persistence_failures_surface_witness :
    (wDupQueue.saveOutcome wTask.id ≠ .ok) ∧
    (∀ q2, enqueue wDupQueue wTask true ≠ .ok (q2, some wTask)) ∧
    (∃ e, _load_persisted_tasks wBadSnaps wQueueEmpty = .error e) :=
  ⟨by decide,
   (persistence_failures_surface wDupQueue wTask (by decide)).1,
   (persistence_failures_surface wDupQueue wTask (by decide)).2.2.2.1
     wBadSnaps wQueueEmpty (by decide)⟩

/-- C8: when the underlying `run_async` submission is rejected as a duplicate
unique task (returns `None`), `RepoApi.clone` — and `RepoApi.sync` on a repo
whose source is set (type yum, rhn or local) — does not return the null handle:
it raises `AttributeError` from `task.set_progress` at submission time. -/
theorem rejected_submission_attribute_error (q : TaskQueue) (newId : String)
    (pid cid cname feed : String) (g rp : PyVal) (repo : Repo) (skip : PyVal)
    (timeout : Option Nat) (st url : String)
    (hc : ∃ u ∈ q.tasks, u.isActive = true ∧ u.method = "_clone" ∧
      u.args = [.str pid, .str cid, .str cname, .str feed, g, rp])
    (hs : ∃ u ∈ q.tasks, u.isActive = true ∧ u.method = "_sync" ∧
      u.args = [.str repo.id, skip])
    (hsrc : repo.source = some (st, url))
    (hst : st = "yum" ∨ st = "rhn" ∨ st = "local") :
    RepoApi.clone q newId pid cid cname feed g rp timeout =
      .error (.attributeError "set_progress") ∧
    RepoApi.sync q newId repo skip timeout =
      .error (.attributeError "set_progress") := by
  constructor
  · obtain ⟨u, hu, hact, hm, ha⟩ := hc
    have hra : run_async q newId "_clone"
        [.str pid, .str cid, .str cname, .str feed, g, rp] [] timeout true
        "Task" = .ok (q, none) := by
      unfold run_async
      apply enqueue_dup
      exact ⟨u, hu, by simp [Task.matchesKey, hm, ha], hact⟩
    simp [RepoApi.clone, hra]
  · obtain ⟨u, hu, hact, hm, ha⟩ := hs
    have hra : run_async q newId "_sync" [.str repo.id, skip] [] timeout true
        "RepoSyncTask" = .ok (q, none) := by
      unfold run_async
      apply enqueue_dup
      exact ⟨u, hu, by simp [Task.matchesKey, hm, ha], hact⟩
    have hcond : st = "yum" ∨ st = "rhn" ∨ (st.data <:+: "local".data) := by
      rcases hst with rfl | rfl | rfl
      · exact Or.inl rfl
      · exact Or.inr (Or.inl rfl)
      · exact Or.inr (Or.inr (List.infix_refl _))
    simp [RepoApi.sync, hra, hsrc, hcond]

/-- A running `_clone` task occupying the clone key used by the C8 witness. -/
def wCloneTask : Task :=
  { id := "c1", method := "_clone",
    args := [.str "p", .str "c", .str "n", .str "parent", .pyNone, .pyNone],
    kwargs := [], timeout := none, taskType := "Task", state := .running,
    result := none, exception := none, tracebackRepr := none,
    progress := [], synchronizer := none }

/-- A registry where both the `_clone` and the `_sync` keys are active. -/
def wBusyQueue : TaskQueue :=
  { tasks := [wCloneTask, { wTask with state := .running }],
    saveOutcome := fun _ => .ok }

/-- The repository (id `r1`, yum source) used by the C8 witness. -/
def wRepo : Repo := { id := "r1", source := some ("yum", "http://feed") }

/-- C8 witness: duplicate submissions of the clone and sync keys raise
`AttributeError` instead of returning a null handle. -/
theorem rejected_submission_attribute_error_witness :
    (∃ u ∈ wBusyQueue.tasks, u.isActive = true ∧ u.method = "_sync" ∧
      u.args = [.str wRepo.id, PyVal.pyNone]) ∧
    RepoApi.clone wBusyQueue "n1" "p" "c" "n" "parent" .pyNone .pyNone none =
      .error (.attributeError "set_progress") ∧
    RepoApi.sync wBusyQueue "n1" wRepo .pyNone none =
      .error (.attributeError "set_progress") :=
  ⟨by decide,
   (rejected_submission_attribute_error wBusyQueue "n1" "p" "c" "n" "parent"
      .pyNone .pyNone wRepo .pyNone none "yum" "http://feed"
      (by decide) (by decide) (by decide) (by decide)).1,
   (rejected_submission_attribute_error wBusyQueue "n1" "p" "c" "n" "parent"
      .pyNone .pyNone wRepo .pyNone none "yum" "http://feed"
      (by decide) (by decide) (by decide) (by decide)).2⟩

/-- C2: over a store whose safe removes are acknowledged (and a fresh queue with
succeeding saves and pairwise-distinct snapshot keys), recovery loads and
reconstructs every persisted snapshot into a waiting task, removes every loaded
record from durable storage, and re-enqueues each reconstructed task; running
recovery again over the already-recovered (empty) store finds nothing and
changes nothing. -/
theorem crash_recovery_single_shot (c : SnapshotCollection) (q : TaskQueue)
    (hrm : ∀ s ∈ c.records, c.removeOk s._id = true)
    (hsave : ∀ i, q.saveOutcome i = .ok)
    (hempty : q.tasks = [])
    (hdist : c.records.Pairwise
      (fun a b => ¬(a.method = b.method ∧ a.args = b.args))) :
    ∃ q2, _load_persisted_tasks c q = .ok ({ c with records := [] }, q2) ∧
      q2.tasks = c.records.map TaskSnapshot.to_task ∧
      (∀ t ∈ q2.tasks, t.state = .waiting) ∧
      _load_persisted_tasks { c with records := [] } q2 =
        .ok ({ c with records := [] }, q2) := by
  have hremove : removeAll c (c.records.map (fun s => s._id)) =
      .ok { c with records := [] } := by
    have h := removeAll_ok c (c.records.map (fun s => s._id))
      (by
        intro i hi
        obtain ⟨s, hs, rfl⟩ := List.mem_map.mp hi
        exact hrm s hs)
    have hnil : c.records.filter
        (fun s => decide (s._id ∉ c.records.map (fun s => s._id))) = [] := by
      rw [List.filter_eq_nil_iff]
      intro s hs
      simp [List.mem_map_of_mem _ hs]
    rw [h, hnil]
  have henq : enqueueAll q (c.records.map TaskSnapshot.to_task) =
      .ok { q with
              tasks := q.tasks ++
                (c.records.map TaskSnapshot.to_task).map
                  (fun t => { t with state := .waiting }) } := by
    apply enqueueAll_fresh q _ hsave
    · intro s _ u hu
      rw [hempty] at hu
      simp at hu
    · rw [List.pairwise_map]
      refine List.Pairwise.imp ?_ hdist
      intro a b hab
      simp only [Task.matchesKey]
      exact decide_eq_false (by simpa [TaskSnapshot.to_task] using hab)
  have hmapmap : (c.records.map TaskSnapshot.to_task).map
      (fun t => { t with state := TaskState.waiting }) =
        c.records.map TaskSnapshot.to_task := by
    rw [List.map_map]
    rfl
  refine ⟨{ q with tasks := c.records.map TaskSnapshot.to_task }, ?_, rfl, ?_, ?_⟩
  · simp only [_load_persisted_tasks, hremove, henq, hmapmap, hempty,
      List.nil_append]
  · intro t ht
    obtain ⟨s, _, rfl⟩ := List.mem_map.mp ht
    rfl
  · rfl

/-- The two persisted running `_sync` snapshots recovered by the C2 witness. -/
def wSnaps : SnapshotCollection :=
  ⟨[⟨"s1", "t1", "_sync", [.str "r1"], [], none, "RepoSyncTask", .running⟩,
    ⟨"s2", "t2", "_sync", [.str "r2"], [], none, "RepoSyncTask", .running⟩],
   fun _ => true⟩

/-- C2 witness: recovering two persisted snapshots empties the store, enqueues
both reconstructed tasks in waiting state, and a second recovery run is a
no-op. -/
theorem crash_recovery_single_shot_witness :
    (∀ s ∈ wSnaps.records, wSnaps.removeOk s._id = true) ∧
    (∃ q2, _load_persisted_tasks wSnaps wQueueEmpty =
        .ok ({ wSnaps with records := [] }, q2) ∧
      q2.tasks = wSnaps.records.map TaskSnapshot.to_task ∧
      (∀ t ∈ q2.tasks, t.state = .waiting) ∧
      _load_persisted_tasks { wSnaps with records := [] } q2 =
        .ok ({ wSnaps with records := [] }, q2)) :=
  ⟨by decide,
   crash_recovery_single_shot wSnaps wQueueEmpty (by decide) (fun _ => rfl) rfl
     (by decide)⟩

/-- C9 witness: a freshly constructed `RemoteClass` proxy, the attribute
`install`, recursion depth 5. -/
theorem remoteclass_getattr_no_termination_witness :
    (RemoteClassObj.make "agent1" "secret" .pyNone "Repo").taskidAttr = none ∧
    pyGetattr (RemoteClassObj.make "agent1" "secret" .pyNone "Repo") 5 "install" =
      none :=
  ⟨rfl,
   (remoteclass_getattr_no_termination
       (RemoteClassObj.make "agent1" "secret" .pyNone "Repo") rfl).2
     "install" 5 (by decide) (by decide)⟩

end Pulp
